import Mathlib

/-!
Verification of `src/Magnum/Shaders/Phong.h` (the Phong shader configuration
facade of the Magnum repository).

The embedding mirrors the source:
* `Flag` / `Flags` embed `Phong::Flag` and the `EnumSet<Flag, UnsignedByte>`
  bitset (`AmbientTexture = 1 << 0`, `DiffuseTexture = 1 << 1`,
  `SpecularTexture = 1 << 2`).
* `Phong` embeds the class: the nine private uniform-location members and
  `_flags`.
* `GLState` embeds the external mutable surface the setters write to: the
  shader program's uniform storage (`setUniform`) and the texture binding
  units.  C++ member functions that mutate that external state become
  functions `Phong → args → GLState → Phong × GLState`; `return *this`
  becomes returning the unchanged `Phong` in the first component.
* Color/vector/matrix values are opaque value types over `ℚ` (the component
  performs no arithmetic on them, it only stores them).
-/

namespace Magnum

/-- `Phong::Flag` (UnsignedByte bit values, from the source enum). -/
inductive Flag
  | AmbientTexture
  | DiffuseTexture
  | SpecularTexture
deriving DecidableEq, Repr

/-- The bit value of each flag: `AmbientTexture = 1 << 0`,
`DiffuseTexture = 1 << 1`, `SpecularTexture = 1 << 2`. -/
def Flag.val : Flag → Nat
  | .AmbientTexture => 1
  | .DiffuseTexture => 2
  | .SpecularTexture => 4

/-- `Phong::Flags = Containers::EnumSet<Flag, UnsignedByte>`: a bitset,
embedded as the underlying natural number of bits. -/
abbrev Flags := Nat

/-- Membership test `flags & Flag::X` (the C++ `EnumSet` `operator&`
followed by the implicit conversion to `bool`: nonzero intersection). -/
def Flags.has (F : Flags) (f : Flag) : Bool := Nat.land F f.val != 0

/-- The empty flag set `Flags()` (default constructor argument). -/
def Flags.none : Flags := 0

/-- An RGB color (`Color3`); opaque value type, no arithmetic here. -/
structure Color3 where
  r : ℚ
  g : ℚ
  b : ℚ
deriving DecidableEq, Repr

/-- A 3D vector (`Vector3`); opaque value type. -/
structure Vector3 where
  x : ℚ
  y : ℚ
  z : ℚ
deriving DecidableEq, Repr

/-- A 3×3 matrix (`Matrix3x3`); opaque value type. -/
def Matrix3x3 := Fin 3 → Fin 3 → ℚ

/-- A 4×4 matrix (`Matrix4`); opaque value type. -/
def Matrix4 := Fin 4 → Fin 4 → ℚ

/-- A value held in one shader parameter (uniform) slot.  `uninit` is the
state of a slot nothing has written to yet. -/
inductive UniformValue
  | uninit
  | float (x : ℚ)
  | vec3 (v : Vector3)
  | color (c : Color3)
  | mat3 (m : Matrix3x3)
  | mat4 (m : Matrix4)

/-- The external mutable GPU-side state the component writes into:
the linked program's uniform storage (indexed by uniform location) and
the texture binding units (indexed by binding unit). -/
structure GLState where
  uniforms : Int → UniformValue
  bindings : Int → Option Nat

/-- `AbstractShaderProgram::setUniform(location, value)`: the external
collaborator's raw "write value to slot" operation. -/
def setUniform (location : Int) (v : UniformValue) (s : GLState) : GLState :=
  { s with uniforms := fun l => if l = location then v else s.uniforms l }

/-- `Texture2D::bind(unit)` at the texture-binding interface boundary:
bind the texture (a non-owning reference, embedded as its id) to a unit. -/
def bindTexture (unit : Int) (texture : Nat) (s : GLState) : GLState :=
  { s with bindings := fun u => if u = unit then some texture else s.bindings u }

/-- `Phong::AmbientTextureLayer = 0` (source enum). -/
def AmbientTextureLayer : Int := 0

/-- `Phong::DiffuseTextureLayer = 1` (source enum). -/
def DiffuseTextureLayer : Int := 1

/-- `Phong::SpecularTextureLayer = 2` (source enum). -/
def SpecularTextureLayer : Int := 2

/-- The `Phong` class: nine private uniform-location members (in source
declaration order) and the `_flags` member. -/
structure Phong where
  transformationMatrixUniform : Int
  projectionMatrixUniform : Int
  normalMatrixUniform : Int
  lightUniform : Int
  diffuseColorUniform : Int
  ambientColorUniform : Int
  specularColorUniform : Int
  lightColorUniform : Int
  shininessUniform : Int
  _flags : Flags
deriving DecidableEq, Repr

/-- `Phong::flags() const { return _flags; }` -/
def Phong.flags (p : Phong) : Flags := p._flags

/-- GPU state before any work: every uniform slot uninitialised, no
texture bound to any unit. -/
def initialState : GLState :=
  { uniforms := fun _ => .uninit, bindings := fun _ => Option.none }

/-- Modelled from the spec: the body of the constructor `Phong::Phong(Flags)`
is not under `src/` (only its declaration is).  Per the spec it stores the
flag set, resolves the nine parameter slots once against the linked program
(each named parameter gets its own distinct handle, here `0..8` in member
declaration order), and arranges that the slots start at the documented
defaults: ambient `(0,0,0)`, specular `(1,1,1)`, light color `(1,1,1)`,
shininess `80.0`. -/
def Phong.create (flags : Flags) : Phong × GLState :=
  let p : Phong :=
    { transformationMatrixUniform := 0
      projectionMatrixUniform := 1
      normalMatrixUniform := 2
      lightUniform := 3
      diffuseColorUniform := 4
      ambientColorUniform := 5
      specularColorUniform := 6
      lightColorUniform := 7
      shininessUniform := 8
      _flags := flags }
  let s := setUniform p.ambientColorUniform (.color ⟨0, 0, 0⟩) initialState
  let s := setUniform p.specularColorUniform (.color ⟨1, 1, 1⟩) s
  let s := setUniform p.lightColorUniform (.color ⟨1, 1, 1⟩) s
  let s := setUniform p.shininessUniform (.float 80) s
  (p, s)

/-- `Phong::setAmbientColor`:
`if(!(_flags & Flag::AmbientTexture)) setUniform(ambientColorUniform, color);
return *this;` -/
def Phong.setAmbientColor (p : Phong) (color : Color3) (s : GLState) :
    Phong × GLState :=
  (p, if !(Flags.has p._flags .AmbientTexture) then
        setUniform p.ambientColorUniform (.color color) s
      else s)

/-- `Phong::setDiffuseColor`:
`if(!(_flags & Flag::DiffuseTexture)) setUniform(diffuseColorUniform, color);
return *this;` -/
def Phong.setDiffuseColor (p : Phong) (color : Color3) (s : GLState) :
    Phong × GLState :=
  (p, if !(Flags.has p._flags .DiffuseTexture) then
        setUniform p.diffuseColorUniform (.color color) s
      else s)

/-- `Phong::setSpecularColor`:
`if(!(_flags & Flag::SpecularTexture)) setUniform(specularColorUniform, color);
return *this;` -/
def Phong.setSpecularColor (p : Phong) (color : Color3) (s : GLState) :
    Phong × GLState :=
  (p, if !(Flags.has p._flags .SpecularTexture) then
        setUniform p.specularColorUniform (.color color) s
      else s)

/-- `Phong::setShininess`:
`setUniform(shininessUniform, shininess); return *this;` -/
def Phong.setShininess (p : Phong) (shininess : ℚ) (s : GLState) :
    Phong × GLState :=
  (p, setUniform p.shininessUniform (.float shininess) s)

/-- `Phong::setTransformationMatrix`:
`setUniform(transformationMatrixUniform, matrix); return *this;` -/
def Phong.setTransformationMatrix (p : Phong) (matrix : Matrix4)
    (s : GLState) : Phong × GLState :=
  (p, setUniform p.transformationMatrixUniform (.mat4 matrix) s)

/-- `Phong::setNormalMatrix`:
`setUniform(normalMatrixUniform, matrix); return *this;` -/
def Phong.setNormalMatrix (p : Phong) (matrix : Matrix3x3) (s : GLState) :
    Phong × GLState :=
  (p, setUniform p.normalMatrixUniform (.mat3 matrix) s)

/-- `Phong::setProjectionMatrix`:
`setUniform(projectionMatrixUniform, matrix); return *this;` -/
def Phong.setProjectionMatrix (p : Phong) (matrix : Matrix4) (s : GLState) :
    Phong × GLState :=
  (p, setUniform p.projectionMatrixUniform (.mat4 matrix) s)

/-- `Phong::setLightPosition`:
`setUniform(lightUniform, light); return *this;` -/
def Phong.setLightPosition (p : Phong) (light : Vector3) (s : GLState) :
    Phong × GLState :=
  (p, setUniform p.lightUniform (.vec3 light) s)

/-- `Phong::setLightColor`:
`setUniform(lightColorUniform, color); return *this;` -/
def Phong.setLightColor (p : Phong) (color : Color3) (s : GLState) :
    Phong × GLState :=
  (p, setUniform p.lightColorUniform (.color color) s)

/-- Modelled from the spec: the body of `Phong::setAmbientTexture` is not
under `src/` (only its declaration is).  Per the spec it binds the given
texture reference to the ambient channel's fixed binding unit, with effect
only when `Flag::AmbientTexture` is set (the source silently drops the call
otherwise). -/
def Phong.setAmbientTexture (p : Phong) (texture : Nat) (s : GLState) :
    Phong × GLState :=
  (p, if Flags.has p._flags .AmbientTexture then
        bindTexture AmbientTextureLayer texture s
      else s)

/-- Modelled from the spec: the body of `Phong::setDiffuseTexture` is not
under `src/` (only its declaration is).  Per the spec it binds the given
texture reference to the diffuse channel's fixed binding unit, with effect
only when `Flag::DiffuseTexture` is set. -/
def Phong.setDiffuseTexture (p : Phong) (texture : Nat) (s : GLState) :
    Phong × GLState :=
  (p, if Flags.has p._flags .DiffuseTexture then
        bindTexture DiffuseTextureLayer texture s
      else s)

/-- Modelled from the spec: the body of `Phong::setSpecularTexture` is not
under `src/` (only its declaration is).  Per the spec it binds the given
texture reference to the specular channel's fixed binding unit, with effect
only when `Flag::SpecularTexture` is set. -/
def Phong.setSpecularTexture (p : Phong) (texture : Nat) (s : GLState) :
    Phong × GLState :=
  (p, if Flags.has p._flags .SpecularTexture then
        bindTexture SpecularTextureLayer texture s
      else s)

/-- Modelled from the spec: the body of `Phong::setTextures` is not under
`src/` (only its declaration is).  Per the spec, for each present (non-null)
reference whose corresponding flag is set it performs the equivalent
single-texture bind; `nullptr` entries are skipped. -/
def Phong.setTextures (p : Phong) (ambient diffuse specular : Option Nat)
    (s : GLState) : Phong × GLState :=
  let s := match ambient with
    | some t => (p.setAmbientTexture t s).2
    | _ => s
  let s := match diffuse with
    | some t => (p.setDiffuseTexture t s).2
    | _ => s
  let s := match specular with
    | some t => (p.setSpecularTexture t s).2
    | _ => s
  (p, s)

/-- One invocation of any setter operation of the class, with its
argument values. -/
inductive SetterCall
  | ambientColor (c : Color3)
  | diffuseColor (c : Color3)
  | specularColor (c : Color3)
  | ambientTex (t : Nat)
  | diffuseTex (t : Nat)
  | specularTex (t : Nat)
  | textures (a d sp : Option Nat)
  | shininess (x : ℚ)
  | transformation (m : Matrix4)
  | normal (m : Matrix3x3)
  | projection (m : Matrix4)
  | lightPos (v : Vector3)
  | lightCol (c : Color3)

/-- Dispatch a `SetterCall` to the corresponding member function. -/
def applyCall : SetterCall → Phong → GLState → Phong × GLState
  | .ambientColor c, p, s => p.setAmbientColor c s
  | .diffuseColor c, p, s => p.setDiffuseColor c s
  | .specularColor c, p, s => p.setSpecularColor c s
  | .ambientTex t, p, s => p.setAmbientTexture t s
  | .diffuseTex t, p, s => p.setDiffuseTexture t s
  | .specularTex t, p, s => p.setSpecularTexture t s
  | .textures a d sp, p, s => p.setTextures a d sp s
  | .shininess x, p, s => p.setShininess x s
  | .transformation m, p, s => p.setTransformationMatrix m s
  | .normal m, p, s => p.setNormalMatrix m s
  | .projection m, p, s => p.setProjectionMatrix m s
  | .lightPos v, p, s => p.setLightPosition v s
  | .lightCol c, p, s => p.setLightColor c s

/-- The uniform locations a call may write (a singleton for the nine value
setters, empty for the texture operations). -/
def SetterCall.uniformTargets : SetterCall → Phong → List Int
  | .ambientColor _, p => [p.ambientColorUniform]
  | .diffuseColor _, p => [p.diffuseColorUniform]
  | .specularColor _, p => [p.specularColorUniform]
  | .shininess _, p => [p.shininessUniform]
  | .transformation _, p => [p.transformationMatrixUniform]
  | .normal _, p => [p.normalMatrixUniform]
  | .projection _, p => [p.projectionMatrixUniform]
  | .lightPos _, p => [p.lightUniform]
  | .lightCol _, p => [p.lightColorUniform]
  | _, _ => []

/-- The texture binding units a call may touch (a singleton for the
single-texture setters, up to three for the batched setter, empty for the
value setters). -/
def SetterCall.unitTargets : SetterCall → List Int
  | .ambientTex _ => [AmbientTextureLayer]
  | .diffuseTex _ => [DiffuseTextureLayer]
  | .specularTex _ => [SpecularTextureLayer]
  | .textures _ _ _ =>
      [AmbientTextureLayer, DiffuseTextureLayer, SpecularTextureLayer]
  | _ => []

/-! ## Helper lemmas -/

/-- Two GPU states with the same uniform storage and the same bindings are
equal. -/
theorem GLState.eq_of (s₁ s₂ : GLState) (hu : s₁.uniforms = s₂.uniforms)
    (hb : s₁.bindings = s₂.bindings) : s₁ = s₂ := by
  cases s₁; cases s₂; cases hu; cases hb; rfl

/-- The object part of `Phong.create`: slot handles `0..8` and the flags. -/
theorem create_fst (F : Flags) :
    (Phong.create F).1 = ⟨0, 1, 2, 3, 4, 5, 6, 7, 8, F⟩ := rfl

/-- `bindTexture` leaves the uniform storage untouched. -/
theorem bindTexture_uniforms (u : Int) (t : Nat) (s : GLState) :
    (bindTexture u t s).uniforms = s.uniforms := rfl

/-- `setUniform` leaves the texture bindings untouched. -/
theorem setUniform_bindings (l : Int) (v : UniformValue) (s : GLState) :
    (setUniform l v s).bindings = s.bindings := rfl

/-- `setUniform` changes no uniform slot other than the written one. -/
theorem setUniform_frame (loc l : Int) (v : UniformValue) (s : GLState)
    (h : l ≠ loc) : (setUniform loc v s).uniforms l = s.uniforms l := by
  simp [setUniform, h]

/-- `bindTexture` changes no binding unit other than the written one. -/
theorem bindTexture_frame (unit u : Int) (t : Nat) (s : GLState)
    (h : u ≠ unit) : (bindTexture unit t s).bindings u = s.bindings u := by
  simp [bindTexture, h]

/-- Binds to two distinct units commute. -/
theorem bindTexture_comm (u₁ u₂ : Int) (t₁ t₂ : Nat) (s : GLState)
    (h : u₁ ≠ u₂) :
    bindTexture u₁ t₁ (bindTexture u₂ t₂ s) =
      bindTexture u₂ t₂ (bindTexture u₁ t₁ s) := by
  refine GLState.eq_of _ _ rfl ?_
  funext u
  by_cases h₁ : u = u₁
  · subst h₁; simp [bindTexture, h]
  · simp [bindTexture, h₁]

/-- The single-texture setters never touch the uniform storage. -/
theorem setAmbientTexture_uniforms (p : Phong) (t : Nat) (s : GLState) :
    ((p.setAmbientTexture t s).2).uniforms = s.uniforms := by
  unfold Phong.setAmbientTexture
  split <;> rfl

theorem setDiffuseTexture_uniforms (p : Phong) (t : Nat) (s : GLState) :
    ((p.setDiffuseTexture t s).2).uniforms = s.uniforms := by
  unfold Phong.setDiffuseTexture
  split <;> rfl

theorem setSpecularTexture_uniforms (p : Phong) (t : Nat) (s : GLState) :
    ((p.setSpecularTexture t s).2).uniforms = s.uniforms := by
  unfold Phong.setSpecularTexture
  split <;> rfl

/-- The single-texture setters change no binding unit other than their own
channel's. -/
theorem setAmbientTexture_frame (p : Phong) (t : Nat) (s : GLState) (u : Int)
    (h : u ≠ AmbientTextureLayer) :
    ((p.setAmbientTexture t s).2).bindings u = s.bindings u := by
  unfold Phong.setAmbientTexture
  split
  · exact bindTexture_frame _ _ _ _ h
  · rfl

theorem setDiffuseTexture_frame (p : Phong) (t : Nat) (s : GLState) (u : Int)
    (h : u ≠ DiffuseTextureLayer) :
    ((p.setDiffuseTexture t s).2).bindings u = s.bindings u := by
  unfold Phong.setDiffuseTexture
  split
  · exact bindTexture_frame _ _ _ _ h
  · rfl

theorem setSpecularTexture_frame (p : Phong) (t : Nat) (s : GLState) (u : Int)
    (h : u ≠ SpecularTextureLayer) :
    ((p.setSpecularTexture t s).2).bindings u = s.bindings u := by
  unfold Phong.setSpecularTexture
  split
  · exact bindTexture_frame _ _ _ _ h
  · rfl

/-! ## Claim theorems -/

/-- C1: for every flag set `F` passed at construction and every color `c`,
`setAmbientColor(c)` (resp. diffuse/specular) writes `c` to its parameter
slot when the matching texture flag is not in `F`, and is a silent no-op
(returns the same object, leaves the state untouched) when the flag is in
`F`. -/
theorem conditional_color_setters (F : Flags) (c : Color3) (s : GLState) :
    ((Flags.has F .AmbientTexture = false →
        ((Phong.create F).1.setAmbientColor c s).2.uniforms
          (Phong.create F).1.ambientColorUniform = UniformValue.color c) ∧
      (Flags.has F .AmbientTexture = true →
        (Phong.create F).1.setAmbientColor c s = ((Phong.create F).1, s)))
    ∧ ((Flags.has F .DiffuseTexture = false →
        ((Phong.create F).1.setDiffuseColor c s).2.uniforms
          (Phong.create F).1.diffuseColorUniform = UniformValue.color c) ∧
      (Flags.has F .DiffuseTexture = true →
        (Phong.create F).1.setDiffuseColor c s = ((Phong.create F).1, s)))
    ∧ ((Flags.has F .SpecularTexture = false →
        ((Phong.create F).1.setSpecularColor c s).2.uniforms
          (Phong.create F).1.specularColorUniform = UniformValue.color c) ∧
      (Flags.has F .SpecularTexture = true →
        (Phong.create F).1.setSpecularColor c s = ((Phong.create F).1, s))) := by
  refine ⟨⟨?_, ?_⟩, ⟨?_, ?_⟩, ⟨?_, ?_⟩⟩ <;> intro h <;>
    simp [create_fst, Phong.setAmbientColor, Phong.setDiffuseColor,
      Phong.setSpecularColor, setUniform, h]

/-- Witness for C1: constructed with `{AmbientTexture}` (bits `1`), the
ambient setter is a no-op and the diffuse setter writes its color. -/
theorem conditional_color_setters_witness :
    ((Phong.create 1).1.setAmbientColor ⟨2, 3, 4⟩ initialState
        = ((Phong.create 1).1, initialState))
    ∧ (((Phong.create 1).1.setDiffuseColor ⟨2, 3, 4⟩ initialState).2.uniforms
        (Phong.create 1).1.diffuseColorUniform = UniformValue.color ⟨2, 3, 4⟩) :=
  ⟨(conditional_color_setters 1 ⟨2, 3, 4⟩ initialState).1.2 (by decide),
   (conditional_color_setters 1 ⟨2, 3, 4⟩ initialState).2.1.1 (by decide)⟩

/-- C2: for every instance (hence every flag set passed at construction),
each of the six unconditional setters always writes the given value into
its own parameter slot, with no flag gating. -/
theorem unconditional_setters_write (p : Phong) (x : ℚ) (mt mp : Matrix4)
    (mn : Matrix3x3) (v : Vector3) (c : Color3) (s : GLState) :
    (p.setShininess x s).2.uniforms p.shininessUniform = UniformValue.float x
    ∧ (p.setTransformationMatrix mt s).2.uniforms p.transformationMatrixUniform
        = UniformValue.mat4 mt
    ∧ (p.setNormalMatrix mn s).2.uniforms p.normalMatrixUniform
        = UniformValue.mat3 mn
    ∧ (p.setProjectionMatrix mp s).2.uniforms p.projectionMatrixUniform
        = UniformValue.mat4 mp
    ∧ (p.setLightPosition v s).2.uniforms p.lightUniform
        = UniformValue.vec3 v
    ∧ (p.setLightColor c s).2.uniforms p.lightColorUniform
        = UniformValue.color c := by
  refine ⟨?_, ?_, ?_, ?_, ?_, ?_⟩ <;>
    simp [Phong.setShininess, Phong.setTransformationMatrix,
      Phong.setNormalMatrix, Phong.setProjectionMatrix,
      Phong.setLightPosition, Phong.setLightColor, setUniform]

/-- C3: `flags()` returns exactly the set passed at construction, and no
setter call changes the object (its flag set or any of the nine stored
slot handles): every setter returns the object it was called on,
unchanged. -/
theorem flags_and_handles_immutable (F : Flags) :
    (Phong.create F).1.flags = F
    ∧ ∀ (c : SetterCall) (p : Phong) (s : GLState), (applyCall c p s).1 = p :=
  ⟨rfl, by intro c p s; cases c <;> rfl⟩

/-- C4: immediately after construction with any flag set, the parameter
slots read the documented defaults: ambient `(0,0,0)`, specular `(1,1,1)`,
light color `(1,1,1)`, shininess `80`. -/
theorem create_defaults (F : Flags) :
    (Phong.create F).2.uniforms (Phong.create F).1.ambientColorUniform
        = UniformValue.color ⟨0, 0, 0⟩
    ∧ (Phong.create F).2.uniforms (Phong.create F).1.specularColorUniform
        = UniformValue.color ⟨1, 1, 1⟩
    ∧ (Phong.create F).2.uniforms (Phong.create F).1.lightColorUniform
        = UniformValue.color ⟨1, 1, 1⟩
    ∧ (Phong.create F).2.uniforms (Phong.create F).1.shininessUniform
        = UniformValue.float 80 := by
  refine ⟨?_, ?_, ?_, ?_⟩ <;> rfl

/-- C5: on an instance constructed with all three texture flags (bits `7`)
and three present texture references, `setTextures(a, d, s)` produces the
same final bound-texture state as calling the three individual texture
setters, in any of the six orders. -/
theorem setTextures_equiv_individual (a d sp : Nat) (s : GLState) :
    (((Phong.create 7).1.setSpecularTexture sp
        (((Phong.create 7).1.setDiffuseTexture d
          (((Phong.create 7).1.setAmbientTexture a s).2)).2)).2
      = ((Phong.create 7).1.setTextures (some a) (some d) (some sp) s).2)
    ∧ (((Phong.create 7).1.setDiffuseTexture d
        (((Phong.create 7).1.setSpecularTexture sp
          (((Phong.create 7).1.setAmbientTexture a s).2)).2)).2
      = ((Phong.create 7).1.setTextures (some a) (some d) (some sp) s).2)
    ∧ (((Phong.create 7).1.setSpecularTexture sp
        (((Phong.create 7).1.setAmbientTexture a
          (((Phong.create 7).1.setDiffuseTexture d s).2)).2)).2
      = ((Phong.create 7).1.setTextures (some a) (some d) (some sp) s).2)
    ∧ (((Phong.create 7).1.setAmbientTexture a
        (((Phong.create 7).1.setSpecularTexture sp
          (((Phong.create 7).1.setDiffuseTexture d s).2)).2)).2
      = ((Phong.create 7).1.setTextures (some a) (some d) (some sp) s).2)
    ∧ (((Phong.create 7).1.setDiffuseTexture d
        (((Phong.create 7).1.setAmbientTexture a
          (((Phong.create 7).1.setSpecularTexture sp s).2)).2)).2
      = ((Phong.create 7).1.setTextures (some a) (some d) (some sp) s).2)
    ∧ (((Phong.create 7).1.setAmbientTexture a
        (((Phong.create 7).1.setDiffuseTexture d
          (((Phong.create 7).1.setSpecularTexture sp s).2)).2)).2
      = ((Phong.create 7).1.setTextures (some a) (some d) (some sp) s).2) := by
  have hA : Flags.has (7 : Flags) .AmbientTexture = true := by decide
  have hD : Flags.has (7 : Flags) .DiffuseTexture = true := by decide
  have hS : Flags.has (7 : Flags) .SpecularTexture = true := by decide
  refine ⟨?_, ?_, ?_, ?_, ?_, ?_⟩ <;>
    simp only [create_fst, Phong.setTextures, Phong.setAmbientTexture,
      Phong.setDiffuseTexture, Phong.setSpecularTexture, hA, hD, hS,
      if_true] <;>
    refine GLState.eq_of _ _ rfl ?_ <;>
    funext u <;>
    simp only [bindTexture] <;>
    (by_cases h0 : u = AmbientTextureLayer <;>
      by_cases h1 : u = DiffuseTextureLayer <;>
      by_cases h2 : u = SpecularTextureLayer <;>
      simp_all [AmbientTextureLayer, DiffuseTextureLayer, SpecularTextureLayer])

/-- C6: each texture setter, when its channel's flag is set in the
instance's flags, binds the given texture to the fixed binding unit of its
channel (the call is exactly that bind, returning the same object). -/
theorem texture_setters_bind (p : Phong) (t : Nat) (s : GLState) :
    (Flags.has p._flags .AmbientTexture = true →
      p.setAmbientTexture t s = (p, bindTexture AmbientTextureLayer t s))
    ∧ (Flags.has p._flags .DiffuseTexture = true →
      p.setDiffuseTexture t s = (p, bindTexture DiffuseTextureLayer t s))
    ∧ (Flags.has p._flags .SpecularTexture = true →
      p.setSpecularTexture t s = (p, bindTexture SpecularTextureLayer t s)) := by
  refine ⟨?_, ?_, ?_⟩ <;> intro h <;>
    simp [Phong.setAmbientTexture, Phong.setDiffuseTexture,
      Phong.setSpecularTexture, h]

/-- Witness for C6: with all three flags set (bits `7`), each texture
setter performs its channel's bind. -/
theorem texture_setters_bind_witness :
    ((Phong.create 7).1.setAmbientTexture 11 initialState
        = ((Phong.create 7).1, bindTexture AmbientTextureLayer 11 initialState))
    ∧ ((Phong.create 7).1.setDiffuseTexture 12 initialState
        = ((Phong.create 7).1, bindTexture DiffuseTextureLayer 12 initialState))
    ∧ ((Phong.create 7).1.setSpecularTexture 13 initialState
        = ((Phong.create 7).1, bindTexture SpecularTextureLayer 13 initialState)) :=
  ⟨(texture_setters_bind (Phong.create 7).1 11 initialState).1 (by decide),
   (texture_setters_bind (Phong.create 7).1 12 initialState).2.1 (by decide),
   (texture_setters_bind (Phong.create 7).1 13 initialState).2.2 (by decide)⟩

/-- C7: the binding unit of each channel is a fixed small integer —
ambient `0`, diffuse `1`, specular `2` — and each texture setter, when its
flag is set, binds at exactly that unit. -/
theorem texture_layers_fixed (p : Phong) (t : Nat) (s : GLState) :
    AmbientTextureLayer = 0 ∧ DiffuseTextureLayer = 1
    ∧ SpecularTextureLayer = 2
    ∧ (Flags.has p._flags .AmbientTexture = true →
        (p.setAmbientTexture t s).2.bindings 0 = some t)
    ∧ (Flags.has p._flags .DiffuseTexture = true →
        (p.setDiffuseTexture t s).2.bindings 1 = some t)
    ∧ (Flags.has p._flags .SpecularTexture = true →
        (p.setSpecularTexture t s).2.bindings 2 = some t) := by
  refine ⟨rfl, rfl, rfl, ?_, ?_, ?_⟩ <;> intro h <;>
    simp [Phong.setAmbientTexture, Phong.setDiffuseTexture,
      Phong.setSpecularTexture, bindTexture, AmbientTextureLayer,
      DiffuseTextureLayer, SpecularTextureLayer, h]

/-- Witness for C7: with all three flags set (bits `7`), the three binds
land at units `0`, `1`, `2`. -/
theorem texture_layers_fixed_witness :
    ((Phong.create 7).1.setAmbientTexture 11 initialState).2.bindings 0
        = some 11
    ∧ ((Phong.create 7).1.setDiffuseTexture 12 initialState).2.bindings 1
        = some 12
    ∧ ((Phong.create 7).1.setSpecularTexture 13 initialState).2.bindings 2
        = some 13 :=
  ⟨(texture_layers_fixed (Phong.create 7).1 11 initialState).2.2.2.1 (by decide),
   (texture_layers_fixed (Phong.create 7).1 12 initialState).2.2.2.2.1 (by decide),
   (texture_layers_fixed (Phong.create 7).1 13 initialState).2.2.2.2.2 (by decide)⟩

/-- C8: each of the six unconditional setters is idempotent — calling it a
second time with the same value leaves the target slot's value identical
to what it was after the first call. -/
theorem unconditional_setters_idempotent (p : Phong) (x : ℚ) (mt mp : Matrix4)
    (mn : Matrix3x3) (v : Vector3) (c : Color3) (s : GLState) :
    ((p.setShininess x ((p.setShininess x s).2)).2.uniforms p.shininessUniform
      = ((p.setShininess x s).2).uniforms p.shininessUniform)
    ∧ ((p.setTransformationMatrix mt
          ((p.setTransformationMatrix mt s).2)).2.uniforms
            p.transformationMatrixUniform
      = ((p.setTransformationMatrix mt s).2).uniforms
            p.transformationMatrixUniform)
    ∧ ((p.setNormalMatrix mn ((p.setNormalMatrix mn s).2)).2.uniforms
            p.normalMatrixUniform
      = ((p.setNormalMatrix mn s).2).uniforms p.normalMatrixUniform)
    ∧ ((p.setProjectionMatrix mp ((p.setProjectionMatrix mp s).2)).2.uniforms
            p.projectionMatrixUniform
      = ((p.setProjectionMatrix mp s).2).uniforms p.projectionMatrixUniform)
    ∧ ((p.setLightPosition v ((p.setLightPosition v s).2)).2.uniforms
            p.lightUniform
      = ((p.setLightPosition v s).2).uniforms p.lightUniform)
    ∧ ((p.setLightColor c ((p.setLightColor c s).2)).2.uniforms
            p.lightColorUniform
      = ((p.setLightColor c s).2).uniforms p.lightColorUniform) := by
  refine ⟨?_, ?_, ?_, ?_, ?_, ?_⟩ <;>
    simp [Phong.setShininess, Phong.setTransformationMatrix,
      Phong.setNormalMatrix, Phong.setProjectionMatrix,
      Phong.setLightPosition, Phong.setLightColor, setUniform]

/-- C9: every operation of the component — construction, `flags()`, and
every setter call — is total: it always produces a result, with no error
branch (the embedded operations return plain values, never an error). -/
theorem operations_total (F : Flags) (c : SetterCall) (p : Phong)
    (s : GLState) :
    (∃ r : Phong × GLState, Phong.create F = r)
    ∧ (∃ G : Flags, Phong.flags p = G)
    ∧ (∃ r : Phong × GLState, applyCall c p s = r) :=
  ⟨⟨_, rfl⟩, ⟨_, rfl⟩, ⟨_, rfl⟩⟩

/-- C10: every setter call modifies at most the parameter slot (or binding
unit) it targets: the object (flags and the nine slot handles) is returned
unchanged, every uniform slot outside the call's target list is unchanged,
and every binding unit outside the call's target list is unchanged. -/
theorem setters_frame (c : SetterCall) (p : Phong) (s : GLState) :
    (applyCall c p s).1 = p
    ∧ (∀ l : Int, l ∉ SetterCall.uniformTargets c p →
        (applyCall c p s).2.uniforms l = s.uniforms l)
    ∧ (∀ u : Int, u ∉ SetterCall.unitTargets c →
        (applyCall c p s).2.bindings u = s.bindings u) := by
  refine ⟨by cases c <;> rfl, ?_, ?_⟩
  · intro l hl
    cases c with
    | ambientColor v =>
        simp only [SetterCall.uniformTargets, List.mem_singleton] at hl
        simp only [applyCall, Phong.setAmbientColor]
        split
        · exact setUniform_frame _ _ _ _ hl
        · rfl
    | diffuseColor v =>
        simp only [SetterCall.uniformTargets, List.mem_singleton] at hl
        simp only [applyCall, Phong.setDiffuseColor]
        split
        · exact setUniform_frame _ _ _ _ hl
        · rfl
    | specularColor v =>
        simp only [SetterCall.uniformTargets, List.mem_singleton] at hl
        simp only [applyCall, Phong.setSpecularColor]
        split
        · exact setUniform_frame _ _ _ _ hl
        · rfl
    | ambientTex t => exact congrFun (setAmbientTexture_uniforms p t s) l
    | diffuseTex t => exact congrFun (setDiffuseTexture_uniforms p t s) l
    | specularTex t => exact congrFun (setSpecularTexture_uniforms p t s) l
    | textures a d sp =>
        cases a <;> cases d <;> cases sp <;>
          simp [applyCall, Phong.setTextures, setAmbientTexture_uniforms,
            setDiffuseTexture_uniforms, setSpecularTexture_uniforms]
    | shininess x =>
        simp only [SetterCall.uniformTargets, List.mem_singleton] at hl
        exact setUniform_frame _ _ _ _ hl
    | transformation m =>
        simp only [SetterCall.uniformTargets, List.mem_singleton] at hl
        exact setUniform_frame _ _ _ _ hl
    | normal m =>
        simp only [SetterCall.uniformTargets, List.mem_singleton] at hl
        exact setUniform_frame _ _ _ _ hl
    | projection m =>
        simp only [SetterCall.uniformTargets, List.mem_singleton] at hl
        exact setUniform_frame _ _ _ _ hl
    | lightPos v =>
        simp only [SetterCall.uniformTargets, List.mem_singleton] at hl
        exact setUniform_frame _ _ _ _ hl
    | lightCol v =>
        simp only [SetterCall.uniformTargets, List.mem_singleton] at hl
        exact setUniform_frame _ _ _ _ hl
  · intro u hu
    cases c with
    | ambientColor v =>
        simp only [applyCall, Phong.setAmbientColor]
        split <;> rfl
    | diffuseColor v =>
        simp only [applyCall, Phong.setDiffuseColor]
        split <;> rfl
    | specularColor v =>
        simp only [applyCall, Phong.setSpecularColor]
        split <;> rfl
    | ambientTex t =>
        have h0 : u ≠ AmbientTextureLayer := by
          simpa [SetterCall.unitTargets] using hu
        exact setAmbientTexture_frame _ _ _ _ h0
    | diffuseTex t =>
        have h1 : u ≠ DiffuseTextureLayer := by
          simpa [SetterCall.unitTargets] using hu
        exact setDiffuseTexture_frame _ _ _ _ h1
    | specularTex t =>
        have h2 : u ≠ SpecularTextureLayer := by
          simpa [SetterCall.unitTargets] using hu
        exact setSpecularTexture_frame _ _ _ _ h2
    | textures a d sp =>
        have h0 : u ≠ AmbientTextureLayer := fun h => hu (by
          simp [SetterCall.unitTargets, h])
        have h1 : u ≠ DiffuseTextureLayer := fun h => hu (by
          simp [SetterCall.unitTargets, h])
        have h2 : u ≠ SpecularTextureLayer := fun h => hu (by
          simp [SetterCall.unitTargets, h])
        cases a <;> cases d <;> cases sp <;>
          simp [applyCall, Phong.setTextures, setAmbientTexture_frame,
            setDiffuseTexture_frame, setSpecularTexture_frame, h0, h1, h2]
    | shininess x => rfl
    | transformation m => rfl
    | normal m => rfl
    | projection m => rfl
    | lightPos v => rfl
    | lightCol v => rfl

/-- Witness for C10: on a freshly constructed instance, a shininess write
leaves an unrelated uniform slot unchanged, and an ambient-texture bind
leaves an unrelated binding unit unchanged. -/
theorem setters_frame_witness :
    ((applyCall (.shininess 5) (Phong.create 0).1 initialState).2.uniforms 0
        = initialState.uniforms 0)
    ∧ ((applyCall (.ambientTex 9) (Phong.create 7).1 initialState).2.bindings 3
        = initialState.bindings 3) :=
  ⟨(setters_frame (.shininess 5) (Phong.create 0).1 initialState).2.1 0
      (by decide),
   (setters_frame (.ambientTex 9) (Phong.create 7).1 initialState).2.2 3
      (by decide)⟩

end Magnum
